import Mathlib

/-!
Verification of the one-api relay controller (`controller/relay.go`,
`common/wav-file.go`) against its natural-language specification.

The Go code is shallowly embedded: byte payloads are `List ℕ` (each entry a
byte value), Go `float64` arithmetic is modelled over `ℚ`, Go machine
integers over `ℕ`/`ℤ`, and the stateful handler bodies are modelled as pure
functions producing explicit outcome values or effect traces.
-/

set_option autoImplicit false

namespace OneApi

/-! ## Audio header parsing (`common/wav-file.go`, `binary.Read` in `RelayAudio`) -/

/-- Little-endian decoding of two bytes, as `binary.Read` does for `uint16`. -/
def u16le (b0 b1 : ℕ) : ℕ := b0 + 256 * b1

/-- Little-endian decoding of four bytes, as `binary.Read` does for `uint32`. -/
def u32le (b0 b1 b2 b3 : ℕ) : ℕ := b0 + 256 * b1 + 65536 * b2 + 16777216 * b3

/-- `common.WAVHeader`: the fixed 44-byte little-endian WAV container header.
Fixed-size `[4]byte` fields are byte lists, `uint16`/`uint32` fields are `ℕ`. -/
structure WAVHeader where
  riff : List ℕ
  fileSize : ℕ
  wave : List ℕ
  fmt : List ℕ
  fmtSize : ℕ
  audioFormat : ℕ
  channels : ℕ
  sampleRate : ℕ
  byteRate : ℕ
  blockAlign : ℕ
  bitsPerSample : ℕ
  dataTag : List ℕ
  dataSize : ℕ
  deriving DecidableEq, Repr

/-- The 4 bytes of the ASCII string RIFF. -/
def riffMagic : List ℕ := [82, 73, 70, 70]

/-- The 4 bytes of the ASCII string WAVE. -/
def waveMagic : List ℕ := [87, 65, 86, 69]

/-- `binary.Read(file, binary.LittleEndian, &header)`: succeeds exactly when the
payload holds at least the 44 header bytes, decoding each field little-endian
at its fixed offset; otherwise it reports an error (`io.ErrUnexpectedEOF`). -/
def readWAVHeader (bs : List ℕ) : Option WAVHeader :=
  if 44 ≤ bs.length then
    Option.some
      { riff := bs.take 4
        fileSize := u32le (bs.getD 4 0) (bs.getD 5 0) (bs.getD 6 0) (bs.getD 7 0)
        wave := ((bs.drop 8).take 4)
        fmt := ((bs.drop 12).take 4)
        fmtSize := u32le (bs.getD 16 0) (bs.getD 17 0) (bs.getD 18 0) (bs.getD 19 0)
        audioFormat := u16le (bs.getD 20 0) (bs.getD 21 0)
        channels := u16le (bs.getD 22 0) (bs.getD 23 0)
        sampleRate := u32le (bs.getD 24 0) (bs.getD 25 0) (bs.getD 26 0) (bs.getD 27 0)
        byteRate := u32le (bs.getD 28 0) (bs.getD 29 0) (bs.getD 30 0) (bs.getD 31 0)
        blockAlign := u16le (bs.getD 32 0) (bs.getD 33 0)
        bitsPerSample := u16le (bs.getD 34 0) (bs.getD 35 0)
        dataTag := ((bs.drop 36).take 4)
        dataSize := u32le (bs.getD 40 0) (bs.getD 41 0) (bs.getD 42 0) (bs.getD 43 0) }
  else Option.none

/-- `OpenAIError` from `controller/relay.go` (the `Code any` field is a string
in every relay error the controller builds). -/
structure OpenAIError where
  message : String
  errType : String
  param : String
  code : String
  deriving DecidableEq, Repr

/-- `OpenAIErrorWithStatusCode` from `controller/relay.go`. -/
structure OpenAIErrorWithStatusCode where
  error : OpenAIError
  statusCode : ℕ
  deriving DecidableEq, Repr

/-- The error `RelayAudio` sends with HTTP 400 when `binary.Read` fails. -/
def readFileError : OpenAIError :=
  { message := "Read file error", errType := "one_api_error", param := "", code := "audio_error" }

/-- The duration-estimation phase of `RelayAudio`: read a `WAVHeader` from the
payload (an error response if the read fails), then
`duration = dataSize / byteRate` when both magic fields match and
`duration = fileSize / 16000` otherwise.  `fileSize` is `form.File.Size`. -/
def estimateDuration (payload : List ℕ) (fileSize : ℕ) : Except OpenAIError ℚ :=
  match readWAVHeader payload with
  | Option.none => Except.error readFileError
  | Option.some hdr =>
    if hdr.riff ≠ riffMagic ∨ hdr.wave ≠ waveMagic then
      Except.ok ((fileSize : ℚ) / 16000)
    else
      Except.ok ((hdr.dataSize : ℚ) / (hdr.byteRate : ℚ))

/-! ## Quota arithmetic (the billing block of `RelayAudio`) -/

/-- Go's `int(x)` conversion from `float64`: truncation toward zero,
expressed on `ℚ` as T-division of numerator by denominator. -/
def goTrunc (x : ℚ) : ℤ := Int.tdiv x.num (x.den : ℤ)

/-- The billing computation in `RelayAudio`:
`m := QuotaPerUnit * 0.006`, `s := m / 60`, `quota := int(duration * s)`. -/
def relayAudioQuota (duration quotaPerUnit : ℚ) : ℤ :=
  goTrunc (duration * (quotaPerUnit * (6 / 1000) / 60))

/-! ## Retry / terminal-failure handling (`Relay` in `controller/relay.go`) -/

/-- Value part of Go `strconv.Atoi`: optional sign then decimal digits; on any
syntax error (empty string, stray characters, bare sign) the value is `0`,
which is what `Relay` keeps since it discards the error. -/
def digitsVal (cs : List Char) : Option ℕ :=
  cs.foldl
    (fun acc c =>
      match acc with
      | Option.none => Option.none
      | Option.some n => if c.isDigit then Option.some (10 * n + (c.toNat - 48)) else Option.none)
    (Option.some 0)

/-- Digits of a nonempty all-digit string, else `Option.none`. -/
def digitsValNE (cs : List Char) : Option ℕ :=
  match cs with
  | [] => Option.none
  | _ :: _ => digitsVal cs

/-- Go `strconv.Atoi`, keeping only the returned value (errors give `0`). -/
def goAtoi (s : String) : ℤ :=
  match s.data with
  | [] => 0
  | c :: rest =>
    if c = '-' then
      match digitsValNE rest with
      | Option.some n => -(n : ℤ)
      | Option.none => 0
    else if c = '+' then
      match digitsValNE rest with
      | Option.some n => (n : ℤ)
      | Option.none => 0
    else
      match digitsValNE (c :: rest) with
      | Option.some n => (n : ℤ)
      | Option.none => 0

/-- The localized message substituted on HTTP 429 (`StatusTooManyRequests`). -/
def loadSaturatedMessage : String := "当前分组负载已饱和，请稍后再试，或升级账户以提升服务质量。"

/-- What `Relay` sends to the client when an attempt fails: either a 307
redirect to the same path carrying the decremented budget, or the terminal
JSON error envelope. -/
inductive RelayFailureOutcome where
  | redirect (path : String) (newRetry : ℤ)
  | errorJSON (status : ℕ) (error : OpenAIError)
  deriving DecidableEq, Repr

/-- The initial retry budget in `Relay`: `c.Query("retry")` parsed with
`Atoi`, replaced by the process-wide default `common.RetryTimes` when the
query parameter is absent (empty string). -/
def initialRetryBudget (retryStr : String) (defaultRetry : ℤ) : ℤ :=
  if retryStr = "" then defaultRetry else goAtoi retryStr

/-- The failure branch of `Relay`: redirect with budget-1 when the budget is
positive, otherwise the terminal envelope, with the message rewritten to
`loadSaturatedMessage` exactly when the status is 429. -/
def relayOnError (path retryStr : String) (defaultRetry : ℤ)
    (e : OpenAIErrorWithStatusCode) : RelayFailureOutcome :=
  let retryTimes := initialRetryBudget retryStr defaultRetry
  if 0 < retryTimes then RelayFailureOutcome.redirect path (retryTimes - 1)
  else
    RelayFailureOutcome.errorJSON e.statusCode
      (if e.statusCode = 429 then { e.error with message := loadSaturatedMessage } else e.error)

/-- Observable result of the whole failure block of `Relay`: the client-visible
outcome plus the unconditional diagnostic log and the channel-disable call. -/
structure RelayErrorResult where
  outcome : RelayFailureOutcome
  sysErrorLogged : Bool
  channelDisabled : Bool
  deriving DecidableEq, Repr

/-- The whole `if err != nil` block of `Relay`.  `shouldDisable` is the value
of `shouldDisableChannel(&err.OpenAIError)` (its body lives outside this
excerpt); the block runs the outcome branch, always logs, and calls
`disableChannel` exactly when `shouldDisable` holds — on retried attempts too,
since the disable check sits outside the retry branch. -/
def relayHandleError (path retryStr : String) (defaultRetry : ℤ)
    (e : OpenAIErrorWithStatusCode) (shouldDisable : Bool) : RelayErrorResult :=
  { outcome := relayOnError path retryStr defaultRetry e
    sysErrorLogged := true
    channelDisabled := shouldDisable }

/-- Modelled from the spec: `disableChannel` (not in this excerpt; only its
call site is) marks the channel disabled in the external channel store, here a
map from channel id to its enabled flag. -/
def disableChannelStore (store : ℕ → Bool) (channelId : ℕ) : ℕ → Bool :=
  fun j => if j = channelId then false else store j

/-! ## Relay mode dispatch (`Relay` in `controller/relay.go`) -/

/-- The `RelayMode*` constants of `controller/relay.go`. -/
inductive RelayMode where
  | unknown
  | chatCompletions
  | completions
  | embeddings
  | moderations
  | imagesGenerations
  | edits
  deriving DecidableEq, Repr

/-- The path-classification chain at the top of `Relay`. -/
def relayModeOfPath (p : String) : RelayMode :=
  if p.startsWith "/v1/chat/completions" then RelayMode.chatCompletions
  else if p.startsWith "/v1/completions" then RelayMode.completions
  else if p.startsWith "/v1/embeddings" then RelayMode.embeddings
  else if p.endsWith "embeddings" then RelayMode.embeddings
  else if p.startsWith "/v1/moderations" then RelayMode.moderations
  else if p.startsWith "/v1/images/generations" then RelayMode.imagesGenerations
  else if p.startsWith "/v1/edits" then RelayMode.edits
  else RelayMode.unknown

/-- The two pipelines the `switch` in `Relay` can select. -/
inductive Pipeline where
  | image
  | text
  deriving DecidableEq, Repr

/-- The `switch relayMode` in `Relay`: images-generations goes to
`relayImageHelper`, every other mode to `relayTextHelper`. -/
def pipelineFor (m : RelayMode) : Pipeline :=
  match m with
  | RelayMode.imagesGenerations => Pipeline.image
  | _ => Pipeline.text

/-- The spec's ordered (matcher, mode) table, written from the spec's words:
first matching row wins, no row matching gives `unknown`. -/
def relayModeTable : List ((String → Bool) × RelayMode) :=
  [(fun p => p.startsWith "/v1/chat/completions", RelayMode.chatCompletions),
   (fun p => p.startsWith "/v1/completions", RelayMode.completions),
   (fun p => p.startsWith "/v1/embeddings" || p.endsWith "embeddings", RelayMode.embeddings),
   (fun p => p.startsWith "/v1/moderations", RelayMode.moderations),
   (fun p => p.startsWith "/v1/images/generations", RelayMode.imagesGenerations),
   (fun p => p.startsWith "/v1/edits", RelayMode.edits)]

/-- First-match evaluation of the spec's dispatch table. -/
def relayModeSpec (p : String) : RelayMode :=
  match relayModeTable.find? (fun e => e.1 p) with
  | Option.some e => e.2
  | Option.none => RelayMode.unknown

/-! ## Response forwarding in `RelayAudio` -/

/-- The upstream `http.Response` as the forwarding code reads it: headers as a
finite map (association list) from key to the slice of values, a status code,
and the body bytes. -/
structure UpstreamResponse where
  headers : List (String × List String)
  statusCode : ℕ
  body : List ℕ

/-- One write against the client `ResponseWriter`. -/
inductive WriteEvent where
  | setHeader (k v : String)
  | writeStatus (code : ℕ)
  | bodyChunk (bytes : List ℕ)
  deriving DecidableEq, Repr

/-- The response-forwarding tail of `RelayAudio`:
`for k, v := range resp.Header { c.Writer.Header().Set(k, v[0]) }`, then
`c.Writer.WriteHeader(resp.StatusCode)`, then `io.Copy(c.Writer, resp.Body)`. -/
def forwardResponse (resp : UpstreamResponse) : List WriteEvent :=
  (resp.headers.map (fun kv => WriteEvent.setHeader kv.1 (kv.2.headD ""))) ++
    [WriteEvent.writeStatus resp.statusCode, WriteEvent.bodyChunk resp.body]

/-- The status code a write trace commits. -/
def clientStatus (evs : List WriteEvent) : Option ℕ :=
  evs.findSome?
    (fun e => match e with | WriteEvent.writeStatus c => Option.some c | _ => Option.none)

/-- The body bytes a write trace delivers, in order. -/
def clientBody (evs : List WriteEvent) : List ℕ :=
  (evs.map (fun e => match e with | WriteEvent.bodyChunk bs => bs | _ => [])).flatten

/-- The headers a write trace sets, in order. -/
def clientHeaders (evs : List WriteEvent) : List (String × String) :=
  evs.filterMap
    (fun e => match e with | WriteEvent.setHeader k v => Option.some (k, v) | _ => Option.none)

/-! ## The post-upstream phase of `RelayAudio` as an effect trace -/

/-- One side effect of `RelayAudio` after `httpClient.Do` has succeeded. -/
inductive Eff where
  | closeReqBody
  | closeInboundBody
  | jsonError (status : ℕ) (message : String)
  | setRespHeaders
  | writeStatus (code : ℕ)
  | copyRespBody
  | closeRespBody
  | postConsumeTokenQuota (quota : ℤ)
  | cacheUpdateUserQuota
  | recordConsumeLog (quota : ℤ)
  | updateUserUsedQuotaAndRequestCount (quota : ℤ)
  | updateChannelUsedQuota (quota : ℤ)
  | closeFile
  deriving DecidableEq, Repr

/-- The deferred billing closure of `RelayAudio`: runs on function exit, does
nothing unless `resp.StatusCode == 200`; the log entry and the two used-quota
counters are skipped when the computed quota is zero. -/
def accountingEffects (status : ℕ) (quota : ℤ) : List Eff :=
  if status = 200 then
    [Eff.postConsumeTokenQuota quota, Eff.cacheUpdateUserQuota] ++
      (if quota ≠ 0 then
        [Eff.recordConsumeLog quota, Eff.updateUserUsedQuotaAndRequestCount quota,
         Eff.updateChannelUsedQuota quota]
      else [])
  else []

/-- Environment resolving each fallible step after the upstream call: the
upstream status, the estimated duration and unit price feeding the deferred
billing, and whether each close/copy step fails. -/
structure AudioEnv where
  status : ℕ
  duration : ℚ
  quotaPerUnit : ℚ
  reqBodyCloseFails : Bool
  inboundBodyCloseFails : Bool
  copyFails : Bool
  respBodyCloseFails : Bool

/-- `RelayAudio` from just after `httpClient.Do` to return, as the trace of
its effects.  The deferred closures (billing, then the `file.Close()` defer)
run at every exit; `resp.Body.Close()` is not deferred — it is the last
explicit statement, reached only when every prior step succeeded. -/
def relayAudioPostUpstream (env : AudioEnv) : List Eff :=
  let quota := relayAudioQuota env.duration env.quotaPerUnit
  let deferred := accountingEffects env.status quota ++ [Eff.closeFile]
  if env.reqBodyCloseFails then
    [Eff.closeReqBody, Eff.jsonError 500 "close_request_body_failed"] ++ deferred
  else if env.inboundBodyCloseFails then
    [Eff.closeReqBody, Eff.closeInboundBody,
     Eff.jsonError 500 "close_request_body_failed"] ++ deferred
  else if env.copyFails then
    [Eff.closeReqBody, Eff.closeInboundBody, Eff.setRespHeaders, Eff.writeStatus env.status,
     Eff.copyRespBody, Eff.jsonError 500 "copy_response_body_failed"] ++ deferred
  else if env.respBodyCloseFails then
    [Eff.closeReqBody, Eff.closeInboundBody, Eff.setRespHeaders, Eff.writeStatus env.status,
     Eff.copyRespBody, Eff.closeRespBody,
     Eff.jsonError 500 "close_response_body_failed"] ++ deferred
  else
    [Eff.closeReqBody, Eff.closeInboundBody, Eff.setRespHeaders, Eff.writeStatus env.status,
     Eff.copyRespBody, Eff.closeRespBody] ++ deferred

/-! ## Concrete inputs used by witnesses and counterexamples -/

/-- A well-formed 44-byte WAV header: byte rate 16000, data size 160000. -/
def goodWav : List ℕ :=
  [82, 73, 70, 70, 0, 0, 0, 0, 87, 65, 86, 69,
   102, 109, 116, 32, 16, 0, 0, 0, 1, 0, 1, 0,
   128, 62, 0, 0, 128, 62, 0, 0, 1, 0, 8, 0,
   100, 97, 116, 97, 0, 113, 2, 0]

/-- The header `readWAVHeader` decodes from `goodWav`. -/
def goodHdr : WAVHeader :=
  { riff := [82, 73, 70, 70], fileSize := 0, wave := [87, 65, 86, 69],
    fmt := [102, 109, 116, 32], fmtSize := 16, audioFormat := 1, channels := 1,
    sampleRate := 16000, byteRate := 16000, blockAlign := 1, bitsPerSample := 8,
    dataTag := [100, 97, 116, 97], dataSize := 160000 }

/-- A generic upstream failure with status 500. -/
def sampleErr : OpenAIErrorWithStatusCode :=
  { error := { message := "upstream error", errType := "server_error", param := "", code := "bad_gateway" }
    statusCode := 500 }

/-- A policy-matching failure arriving while retry budget remains. -/
def quotaErr : OpenAIErrorWithStatusCode :=
  { error := { message := "quota exhausted", errType := "insufficient_quota", param := "",
               code := "insufficient_quota" }
    statusCode := 401 }

/-- A rate-limited upstream failure (HTTP 429). -/
def rateLimitedErr : OpenAIErrorWithStatusCode :=
  { error := { message := "Rate limit reached", errType := "requests", param := "",
               code := "rate_limit_exceeded" }
    statusCode := 429 }

/-- A concrete buffered upstream response. -/
def sampleResp : UpstreamResponse :=
  { headers := [("Content-Type", ["application/json", "ignored-second-value"])]
    statusCode := 200
    body := [123, 125] }

/-- A 200 upstream response whose body copy to the client fails. -/
def copyFailEnv : AudioEnv :=
  { status := 200, duration := 10, quotaPerUnit := 500000,
    reqBodyCloseFails := false, inboundBodyCloseFails := false,
    copyFails := true, respBodyCloseFails := false }

/-- The all-success environment for the same response. -/
def successEnv : AudioEnv :=
  { status := 200, duration := 10, quotaPerUnit := 500000,
    reqBodyCloseFails := false, inboundBodyCloseFails := false,
    copyFails := false, respBodyCloseFails := false }

/-! ## Theorems -/

/-- C1: for every uploaded audio payload whose first 44 bytes parse as a
`WAVHeader` with RIFF magic "RIFF", WAVE magic "WAVE" and `byteRate > 0`, the
estimated duration is `dataSize / byteRate` seconds; for every payload whose
parsed header lacks the RIFF or WAVE magic it is `fileSizeBytes / 16000`. -/
theorem audio_duration_estimate (payload : List ℕ) (fileSize : ℕ) (hdr : WAVHeader)
    (hp : readWAVHeader payload = Option.some hdr) :
    (hdr.riff = riffMagic ∧ hdr.wave = waveMagic ∧ 0 < hdr.byteRate →
      estimateDuration payload fileSize = Except.ok ((hdr.dataSize : ℚ) / (hdr.byteRate : ℚ))) ∧
    (¬(hdr.riff = riffMagic ∧ hdr.wave = waveMagic) →
      estimateDuration payload fileSize = Except.ok ((fileSize : ℚ) / 16000)) := by
  unfold estimateDuration
  rw [hp]
  constructor
  · rintro ⟨h1, h2, -⟩
    simp [h1, h2]
  · intro h
    have hd : hdr.riff ≠ riffMagic ∨ hdr.wave ≠ waveMagic := by tauto
    simp only [if_pos hd]

/-- Witness for C1: the concrete payload `goodWav` parses to `goodHdr` with
valid magic and positive byte rate, and its estimate is `dataSize/byteRate`
(160000/16000 = 10 seconds). -/
theorem audio_duration_estimate_witness :
    readWAVHeader goodWav = Option.some goodHdr ∧
    estimateDuration goodWav 0 = Except.ok ((goodHdr.dataSize : ℚ) / (goodHdr.byteRate : ℚ)) ∧
    (goodHdr.dataSize : ℚ) / (goodHdr.byteRate : ℚ) = 10 := by
  refine ⟨by decide, ?_, ?_⟩
  · exact (audio_duration_estimate goodWav 0 goodHdr (by decide)).1 ⟨rfl, rfl, by decide⟩
  · show (160000 : ℚ) / (16000 : ℚ) = 10
    norm_num

/-- C2: for nonnegative duration and quota-per-unit, the audio quota is
`⌊duration * quotaPerUnit * 0.006 / 60⌋` and is never negative (for
nonnegative inputs Go's truncation toward zero agrees with the floor). -/
theorem relayAudioQuota_floor (d p : ℚ) (hd : 0 ≤ d) (hp : 0 ≤ p) :
    relayAudioQuota d p = ⌊d * (p * (6 / 1000) / 60)⌋ ∧ 0 ≤ relayAudioQuota d p := by
  have hx : (0 : ℚ) ≤ d * (p * (6 / 1000) / 60) := by positivity
  have hfl : relayAudioQuota d p = ⌊d * (p * (6 / 1000) / 60)⌋ := by
    unfold relayAudioQuota goTrunc
    rw [Rat.floor_def]
    exact Int.tdiv_eq_ediv (Rat.num_nonneg.mpr hx) (by positivity)
  exact ⟨hfl, hfl ▸ Int.le_floor.mpr (by exact_mod_cast hx)⟩

/-- Witness for C2: ten seconds at 500000 quota units per dollar is billed as
`⌊10 * 500000 * 0.006 / 60⌋ = 500`. -/
theorem relayAudioQuota_floor_witness :
    (0 : ℚ) ≤ 10 ∧ (0 : ℚ) ≤ 500000 ∧
    relayAudioQuota 10 500000 = ⌊(10 : ℚ) * ((500000 : ℚ) * (6 / 1000) / 60)⌋ ∧
    0 ≤ relayAudioQuota 10 500000 ∧
    relayAudioQuota 10 500000 = 500 := by
  have h := relayAudioQuota_floor 10 500000 (by norm_num) (by norm_num)
  refine ⟨by norm_num, by norm_num, h.1, h.2, ?_⟩
  rw [h.1]
  norm_num

/-- C4 counterexample: on the empty payload (shorter than 44 bytes) the header
read fails, and `RelayAudio` answers with the fatal `Read file error` response
instead of the fallback estimate `fileSize / 16000`. -/
theorem estimateDuration_read_fail_cex :
    estimateDuration [] 0 = Except.error readFileError ∧
    estimateDuration [] 0 ≠ Except.ok ((0 : ℚ) / 16000) := by
  have h1 : estimateDuration [] 0 = Except.error readFileError := rfl
  refine ⟨h1, ?_⟩
  rw [h1]
  intro h
  exact Except.noConfusion h

/-- C4 (amended): when the payload is shorter than the 44 header bytes,
`binary.Read` fails and `RelayAudio` replies with the HTTP 400 error
`Read file error`; it does not fall back to `fileSize / 16000`. -/
theorem estimateDuration_read_fail_errors (payload : List ℕ) (fileSize : ℕ)
    (h : payload.length < 44) :
    estimateDuration payload fileSize = Except.error readFileError := by
  have hn : readWAVHeader payload = Option.none := by
    unfold readWAVHeader
    rw [if_neg (by omega)]
  unfold estimateDuration
  rw [hn]

/-- Witness for C4's amended claim at a concrete short payload. -/
theorem estimateDuration_read_fail_witness :
    ([] : List ℕ).length < 44 ∧ estimateDuration [] 7 = Except.error readFileError :=
  ⟨by decide, estimateDuration_read_fail_errors [] 7 (by decide)⟩

/-- C3: the retry budget of a failed attempt starts at the process-wide
default when the `retry` query parameter is absent; a failed attempt with
positive budget redirects carrying exactly budget-1 (which never drops below
0); at budget 0 the failure is terminal and answers the error envelope. -/
theorem relay_retry_budget (path retryStr : String) (defaultRetry : ℤ)
    (e : OpenAIErrorWithStatusCode) :
    (retryStr = "" → initialRetryBudget retryStr defaultRetry = defaultRetry) ∧
    (0 < initialRetryBudget retryStr defaultRetry →
      relayOnError path retryStr defaultRetry e =
        RelayFailureOutcome.redirect path (initialRetryBudget retryStr defaultRetry - 1) ∧
      0 ≤ initialRetryBudget retryStr defaultRetry - 1) ∧
    (initialRetryBudget retryStr defaultRetry = 0 →
      relayOnError path retryStr defaultRetry e =
        RelayFailureOutcome.errorJSON e.statusCode
          (if e.statusCode = 429 then { e.error with message := loadSaturatedMessage }
           else e.error)) := by
  refine ⟨?_, ?_, ?_⟩
  · intro h
    unfold initialRetryBudget
    rw [if_pos h]
  · intro h
    simp only [relayOnError]
    rw [if_pos h]
    exact ⟨rfl, by omega⟩
  · intro h
    simp only [relayOnError]
    rw [if_neg (by omega)]

/-- Witness for C3: with the parameter absent and default 3, the budget is 3,
a failure redirects with budget 2, and at budget 0 the failure is terminal. -/
theorem relay_retry_budget_witness :
    initialRetryBudget "" 3 = 3 ∧
    relayOnError "/v1/chat/completions" "" 3 sampleErr =
      RelayFailureOutcome.redirect "/v1/chat/completions" 2 ∧
    relayOnError "/v1/chat/completions" "" 0 sampleErr =
      RelayFailureOutcome.errorJSON sampleErr.statusCode
        (if sampleErr.statusCode = 429 then
          { sampleErr.error with message := loadSaturatedMessage }
         else sampleErr.error) := by
  have h3 := relay_retry_budget "/v1/chat/completions" "" 3 sampleErr
  have h0 := relay_retry_budget "/v1/chat/completions" "" 0 sampleErr
  have hb : initialRetryBudget "" 3 = 3 := h3.1 rfl
  refine ⟨hb, ?_, h0.2.2 (h0.1 rfl)⟩
  have := (h3.2.1 (by rw [hb]; norm_num)).1
  rw [hb] at this
  exact this

/-- C5 counterexample: a policy-matching failure arriving with retry budget 2
is retried (redirect with budget 1) and nevertheless disables the channel,
because the disable check sits outside the retry branch of `Relay`. -/
theorem disable_on_retry_cex :
    (relayHandleError "/v1/chat/completions" "" 2 quotaErr true).outcome =
      RelayFailureOutcome.redirect "/v1/chat/completions" 1 ∧
    (relayHandleError "/v1/chat/completions" "" 2 quotaErr true).channelDisabled = true := by
  constructor
  · show relayOnError "/v1/chat/completions" "" 2 quotaErr = _
    simp only [relayOnError, initialRetryBudget]
    norm_num
  · rfl

/-- C5 (amended): `disableChannel` is invoked on a failed attempt exactly when
the failing error matches the disable policy, regardless of the remaining
retry budget; every failed attempt also logs a diagnostic record; and (channel
store modelled from the spec) disabling an already-disabled channel leaves the
store unchanged. -/
theorem channel_disable_policy (path retryStr : String) (defaultRetry : ℤ)
    (e : OpenAIErrorWithStatusCode) (shouldDisable : Bool) (store : ℕ → Bool) (cid : ℕ) :
    ((relayHandleError path retryStr defaultRetry e shouldDisable).channelDisabled = true ↔
      shouldDisable = true) ∧
    (relayHandleError path retryStr defaultRetry e shouldDisable).channelDisabled =
      (relayHandleError path "" defaultRetry e shouldDisable).channelDisabled ∧
    (relayHandleError path retryStr defaultRetry e shouldDisable).sysErrorLogged = true ∧
    disableChannelStore (disableChannelStore store cid) cid = disableChannelStore store cid := by
  refine ⟨Iff.rfl, rfl, rfl, ?_⟩
  funext j
  unfold disableChannelStore
  by_cases h : j = cid <;> simp [h]

/-- C8: a terminal relay failure answers exactly one JSON error envelope with
the upstream status code; the message is rewritten to the localized
load-saturated text exactly when that status is 429. -/
theorem terminal_error_envelope (path retryStr : String) (defaultRetry : ℤ)
    (e : OpenAIErrorWithStatusCode)
    (hb : ¬0 < initialRetryBudget retryStr defaultRetry) :
    relayOnError path retryStr defaultRetry e =
      RelayFailureOutcome.errorJSON e.statusCode
        (if e.statusCode = 429 then { e.error with message := loadSaturatedMessage }
         else e.error) ∧
    (e.statusCode = 429 →
      (if e.statusCode = 429 then { e.error with message := loadSaturatedMessage }
       else e.error) = { e.error with message := loadSaturatedMessage }) ∧
    (e.statusCode ≠ 429 →
      (if e.statusCode = 429 then { e.error with message := loadSaturatedMessage }
       else e.error) = e.error) := by
  refine ⟨?_, ?_, ?_⟩
  · simp only [relayOnError]
    rw [if_neg hb]
  · intro h
    rw [if_pos h]
  · intro h
    rw [if_neg h]

/-- Witness for C8: a 429 failure with exhausted budget answers the envelope
with status 429 and the localized message; a 500 failure keeps its message. -/
theorem terminal_error_envelope_witness :
    relayOnError "/v1/chat/completions" "" 0 rateLimitedErr =
      RelayFailureOutcome.errorJSON rateLimitedErr.statusCode
        { rateLimitedErr.error with message := loadSaturatedMessage } ∧
    relayOnError "/v1/chat/completions" "" 0 sampleErr =
      RelayFailureOutcome.errorJSON sampleErr.statusCode sampleErr.error := by
  have hb : ¬0 < initialRetryBudget "" (0 : ℤ) := by
    simp [initialRetryBudget]
  have h1 := terminal_error_envelope "/v1/chat/completions" "" 0 rateLimitedErr hb
  have h2 := terminal_error_envelope "/v1/chat/completions" "" 0 sampleErr hb
  constructor
  · rw [h1.1, h1.2.1 rfl]
  · rw [h2.1, h2.2.2 (by decide)]

/-- A leading block of header writes commits no status. -/
theorem clientStatus_setHeaders (hs : List (String × List String)) (rest : List WriteEvent) :
    clientStatus ((hs.map fun kv => WriteEvent.setHeader kv.1 (kv.2.headD "")) ++ rest) =
      clientStatus rest := by
  induction hs with
  | nil => rfl
  | cons a t ih => simp [clientStatus, List.findSome?] at ih ⊢; exact ih

/-- A leading block of header writes delivers no body bytes. -/
theorem clientBody_setHeaders (hs : List (String × List String)) (rest : List WriteEvent) :
    clientBody ((hs.map fun kv => WriteEvent.setHeader kv.1 (kv.2.headD "")) ++ rest) =
      clientBody rest := by
  induction hs with
  | nil => rfl
  | cons a t ih => simp only [List.map_cons, List.cons_append, clientBody, List.map, List.flatten]; exact ih

/-- A leading block of header writes sets exactly those headers. -/
theorem clientHeaders_setHeaders (hs : List (String × List String)) (rest : List WriteEvent) :
    clientHeaders ((hs.map fun kv => WriteEvent.setHeader kv.1 (kv.2.headD "")) ++ rest) =
      hs.map (fun kv => (kv.1, kv.2.headD "")) ++ clientHeaders rest := by
  induction hs with
  | nil => rfl
  | cons a t ih => simpa [clientHeaders] using ih

/-- C6: forwarding a buffered upstream response commits the upstream status
code verbatim, delivers the body byte-for-byte, sets the first value of every
upstream header, and performs all header writes before the status commit,
which precedes the body bytes. -/
theorem forward_response_preserves (resp : UpstreamResponse)
    (hne : ∀ kv ∈ resp.headers, kv.2 ≠ ([] : List String)) :
    clientStatus (forwardResponse resp) = Option.some resp.statusCode ∧
    clientBody (forwardResponse resp) = resp.body ∧
    (∀ k vs, (k, vs) ∈ resp.headers →
      ∃ v, vs.head? = Option.some v ∧ (k, v) ∈ clientHeaders (forwardResponse resp)) ∧
    (∃ pre, forwardResponse resp =
        pre ++ [WriteEvent.writeStatus resp.statusCode, WriteEvent.bodyChunk resp.body] ∧
      ∀ ev ∈ pre, ∃ k v, ev = WriteEvent.setHeader k v) := by
  refine ⟨?_, ?_, ?_, ?_⟩
  · unfold forwardResponse
    rw [clientStatus_setHeaders]
    rfl
  · unfold forwardResponse
    rw [clientBody_setHeaders]
    simp [clientBody]
  · intro k vs hmem
    have hvs := hne (k, vs) hmem
    cases vs with
    | nil => exact absurd rfl hvs
    | cons v t =>
      refine ⟨v, rfl, ?_⟩
      unfold forwardResponse
      rw [clientHeaders_setHeaders]
      apply List.mem_append_left
      exact List.mem_map_of_mem (fun kv => (kv.1, kv.2.headD "")) hmem
  · unfold forwardResponse
    refine ⟨_, rfl, ?_⟩
    intro ev hev
    rcases List.mem_map.mp hev with ⟨kv, -, rfl⟩
    exact ⟨kv.1, kv.2.headD "", rfl⟩

/-- Witness for C6 on a concrete response: status 200 and body bytes `{}` come
through unchanged, and the first Content-Type value is set. -/
theorem forward_response_witness :
    (∀ kv ∈ sampleResp.headers, kv.2 ≠ ([] : List String)) ∧
    clientStatus (forwardResponse sampleResp) = Option.some sampleResp.statusCode ∧
    clientBody (forwardResponse sampleResp) = sampleResp.body := by
  have hne : ∀ kv ∈ sampleResp.headers, kv.2 ≠ ([] : List String) := by
    intro kv hkv
    simp only [sampleResp, List.mem_singleton] at hkv
    subst hkv
    simp
  have h := forward_response_preserves sampleResp hne
  exact ⟨hne, h.1, h.2.1⟩

/-- C7: the dispatcher's chained path conditions agree with the spec's ordered
first-match table on every path, and exactly the images-generations mode is
routed to the image pipeline (every other mode goes to the text pipeline). -/
theorem relay_mode_dispatch (p : String) :
    relayModeOfPath p = relayModeSpec p ∧
    (pipelineFor (relayModeOfPath p) = Pipeline.image ↔
      relayModeOfPath p = RelayMode.imagesGenerations) := by
  constructor
  · unfold relayModeOfPath relayModeSpec relayModeTable
    cases h1 : p.startsWith "/v1/chat/completions" <;>
      cases h2 : p.startsWith "/v1/completions" <;>
      cases h3 : p.startsWith "/v1/embeddings" <;>
      cases h4 : p.endsWith "embeddings" <;>
      cases h5 : p.startsWith "/v1/moderations" <;>
      cases h6 : p.startsWith "/v1/images/generations" <;>
      cases h7 : p.startsWith "/v1/edits" <;>
      simp [List.find?, h1, h2, h3, h4, h5, h6, h7]
  · cases hm : relayModeOfPath p <;> simp [pipelineFor]

/-- C9: when copying the upstream body to the client fails, `RelayAudio`
returns without closing the upstream response body (its `Close` is the last
statement, not deferred), although the copy did start; on the all-success path
the response body is closed. -/
theorem respBody_leak_on_copy_failure :
    Eff.closeRespBody ∉ relayAudioPostUpstream copyFailEnv ∧
    Eff.copyRespBody ∈ relayAudioPostUpstream copyFailEnv ∧
    Eff.closeRespBody ∈ relayAudioPostUpstream successEnv := by
  have hq : relayAudioQuota 10 500000 = 500 := by
    norm_num [relayAudioQuota, goTrunc]
  refine ⟨?_, ?_, ?_⟩ <;>
    simp [relayAudioPostUpstream, accountingEffects, copyFailEnv, successEnv, hq]

/-- C10: for every environment after the upstream call, the billing effects
appear in the trace exactly when the upstream status is 200 (the secondary
effects additionally require nonzero quota) — in particular they commit even
when the body copy fails — while the status is forwarded to the client exactly
when the two request-body closes succeeded, independently of billing. -/
theorem accounting_iff_status200 (env : AudioEnv) :
    (Eff.postConsumeTokenQuota (relayAudioQuota env.duration env.quotaPerUnit)
        ∈ relayAudioPostUpstream env ↔ env.status = 200) ∧
    (Eff.cacheUpdateUserQuota ∈ relayAudioPostUpstream env ↔ env.status = 200) ∧
    (Eff.recordConsumeLog (relayAudioQuota env.duration env.quotaPerUnit)
        ∈ relayAudioPostUpstream env ↔
      env.status = 200 ∧ relayAudioQuota env.duration env.quotaPerUnit ≠ 0) ∧
    (Eff.updateUserUsedQuotaAndRequestCount (relayAudioQuota env.duration env.quotaPerUnit)
        ∈ relayAudioPostUpstream env ↔
      env.status = 200 ∧ relayAudioQuota env.duration env.quotaPerUnit ≠ 0) ∧
    (Eff.updateChannelUsedQuota (relayAudioQuota env.duration env.quotaPerUnit)
        ∈ relayAudioPostUpstream env ↔
      env.status = 200 ∧ relayAudioQuota env.duration env.quotaPerUnit ≠ 0) ∧
    (Eff.writeStatus env.status ∈ relayAudioPostUpstream env ↔
      env.reqBodyCloseFails = false ∧ env.inboundBodyCloseFails = false) := by
  obtain ⟨st, d, p, rb, ib, cf, rf⟩ := env
  cases rb <;> cases ib <;> cases cf <;> cases rf <;>
    by_cases hs : st = 200 <;>
    by_cases hzero : relayAudioQuota d p = 0 <;>
    simp_all [relayAudioPostUpstream, accountingEffects]

end OneApi
